import Mathlib

/- Shallow embedding of src/main.c of the alexydens/vulkan repository:
   the renderer lifecycle (instance / device / swapchain construction) and the
   frame-loop state machine of renderer_draw.  u32 quantities are modelled as
   Nat with explicit reduction modulo 2^32 where the C arithmetic can wrap,
   i32 quantities as Int, opaque Vulkan handles as Nat tokens, and the
   environment (driver replies, window size) as explicit inputs. -/

/-- VK_SUCCESS, numeric value of the Vulkan result code. -/
def VK_SUCCESS : Int := 0

/-- VK_ERROR_OUT_OF_DATE_KHR, numeric value of the Vulkan result code. -/
def VK_ERROR_OUT_OF_DATE_KHR : Int := -1000001004

/-- VK_SUBOPTIMAL_KHR, numeric value of the Vulkan result code. -/
def VK_SUBOPTIMAL_KHR : Int := 1000001003

/-- 2^32, the modulus of u32 arithmetic. -/
def U32_MOD : Nat := 4294967296

/-- 0xFFFFFFFF, the largest u32; also the width component of the Vulkan
"undefined current extent" sentinel tested at main.c line 716. -/
def U32_MAX : Nat := 4294967295

/-- VkExtent2D: a pair of u32 dimensions. -/
structure VkExtent2D where
  width : Nat
  height : Nat
deriving DecidableEq

/-- The fields of VkSurfaceCapabilitiesKHR that main.c reads. -/
structure VkSurfaceCapabilitiesKHR where
  minImageCount : Nat
  maxImageCount : Nat
  currentExtent : VkExtent2D
  minImageExtent : VkExtent2D
  maxImageExtent : VkExtent2D
deriving DecidableEq

/-- The "undefined extent" sentinel (0xFFFFFFFF, 0xFFFFFFFF). -/
def undefinedExtent : VkExtent2D := { width := U32_MAX, height := U32_MAX }

/-- VkSurfaceFormatKHR: format and color space as their numeric enum values. -/
structure VkSurfaceFormatKHR where
  format : Nat
  colorSpace : Nat
deriving DecidableEq

/-- Numeric value of VK_FORMAT_B8G8R8A8_SRGB. -/
def VK_FORMAT_B8G8R8A8_SRGB : Nat := 50

/-- Numeric value of VK_COLORSPACE_SRGB_NONLINEAR_KHR. -/
def VK_COLORSPACE_SRGB_NONLINEAR_KHR : Nat := 0

/-- VkPresentModeKHR, the presentation modes. -/
inductive VkPresentModeKHR where
  | immediate
  | mailbox
  | fifo
  | fifoRelaxed
deriving DecidableEq

/-- VkSharingMode as set at main.c lines 755 and 759. -/
inductive VkSharingMode where
  | exclusive
  | concurrent
deriving DecidableEq

/-- VkPhysicalDeviceType, the device-type tiers read by
renderer_pick_physical_device. -/
inductive VkPhysicalDeviceType where
  | otherDevice
  | integratedGpu
  | discreteGpu
  | virtualGpu
  | cpu
deriving DecidableEq

/-- Identifiers for the Vulkan call sites whose results flow through the
VK_CHECK macro or the renderer_draw switches. -/
inductive VkCall where
  | vkCreateInstance
  | vkCreateSwapchainKHR
  | vkQueueSubmit
  | vkAcquireNextImageKHR
  | vkQueuePresentKHR
  | otherCall (n : Nat)
deriving DecidableEq

/-- Effect of one expansion of the VK_CHECK macro: the (code, call) pairs it
prints and whether it terminates the process. -/
structure CheckEffect where
  logged : List (Int × VkCall)
  exits : Bool
deriving DecidableEq

/-- The VK_CHECK macro (main.c line 46):
`do{VkResult r=(expr);if(r!=VK_SUCCESS){printf("ERROR %d: %s\n",r,#expr);}}while(0)`.
It prints the numeric result and the expression text on any non-success result;
control flow always continues (the macro contains no exit). -/
def VK_CHECK (r : Int) (call : VkCall) : CheckEffect :=
  if r = VK_SUCCESS then { logged := [], exits := false }
  else { logged := [(r, call)], exits := false }

/-- The messages renderer_draw and VK_CHECK print, as structured data:
checkError carries the numeric code and the call, the fixed renderer_draw
messages carry neither a code nor further data, matching the printf texts at
main.c lines 46, 1467, 1485, 1534 and 1552. -/
inductive LogMsg where
  | checkError (code : Int) (call : VkCall)
  | infoSwapchainOutOfDate
  | errorFailedAcquire
  | errorFailedPresent
deriving DecidableEq

/-- A queue family as the scan of renderer_find_queue_families sees it:
whether queueFlags has VK_QUEUE_GRAPHICS_BIT, and the answer of
vkGetPhysicalDeviceSurfaceSupportKHR for this family. -/
structure QueueFamilyInput where
  graphicsBit : Bool
  presentSupport : Bool
deriving DecidableEq

/-- The queue_family_indices member of renderer_t (main.c lines 66-70):
the two role fields and the positional indices[2] array. -/
structure QueueFamilyIndices where
  graphics_family : Nat
  present_family : Nat
  indices : List Nat
deriving DecidableEq

/-- The scan loop of renderer_find_queue_families (main.c lines 485-507):
iterates over the families in order; every family with present support
overwrites the present record (and indices[1]), every family with the graphics
bit overwrites the graphics record (and indices[0]); the loop never breaks.
The accumulator holds (graphics_family, present_family), none meaning the
corresponding found flag is still false. -/
def findQueueFamiliesLoop : Nat → List QueueFamilyInput →
    Option Nat × Option Nat → Option Nat × Option Nat
  | _, [], acc => acc
  | i, f :: rest, acc =>
    let acc1 := if f.presentSupport then (acc.1, some i) else acc
    let acc2 := if f.graphicsBit then (some i, acc1.2) else acc1
    findQueueFamiliesLoop (i + 1) rest acc2

/-- renderer_find_queue_families (main.c lines 459-518): runs the scan loop and
checks the found flags; none models the exit(1) taken when either role is
missing.  On success indices = [graphics_family, present_family]
(lines 498 and 505). -/
def renderer_find_queue_families (fams : List QueueFamilyInput) :
    Option QueueFamilyIndices :=
  match findQueueFamiliesLoop 0 fams (none, none) with
  | (some g, some p) =>
    some { graphics_family := g, present_family := p, indices := [g, p] }
  | _ => none

/-- A first-match index scan starting at a given index: the shape of the three
selection loops in renderer_pick_physical_device and of the format search. -/
def firstIdxFrom {α : Type} (p : α → Bool) : Nat → List α → Option Nat
  | _, [] => none
  | i, a :: rest => if p a then some i else firstIdxFrom p (i + 1) rest

/-- renderer_pick_physical_device (main.c lines 385-457): first device of type
discrete GPU; else first device of type integrated GPU; else the device at
index 0.  The C code indexes physical_devices[0] unconditionally in the last
tier; none models the out-of-bounds read it would do on an empty enumeration. -/
def renderer_pick_physical_device (devs : List VkPhysicalDeviceType) :
    Option Nat :=
  match firstIdxFrom (fun d => d == VkPhysicalDeviceType.discreteGpu) 0 devs with
  | some i => some i
  | none =>
    match firstIdxFrom (fun d => d == VkPhysicalDeviceType.integratedGpu) 0 devs with
    | some i => some i
    | none => if devs = [] then none else some 0

/-- Whether a surface format is the preferred one (main.c lines 660-661):
B8G8R8A8_SRGB in the SRGB non-linear color space. -/
def isPreferredFormat (f : VkSurfaceFormatKHR) : Bool :=
  f.format == VK_FORMAT_B8G8R8A8_SRGB &&
    f.colorSpace == VK_COLORSPACE_SRGB_NONLINEAR_KHR

/-- The format search loop (main.c lines 659-666): first preferred format,
with the found_format flag set on a match before the break. -/
def formatSearch : List VkSurfaceFormatKHR → Option VkSurfaceFormatKHR
  | [] => none
  | f :: rest => if isPreferredFormat f then some f else formatSearch rest

/-- Format negotiation (main.c lines 659-669): the loop, then
`if (!found_format) ... = surface_formats[0]` settling for the first
enumerated format (none when the enumeration is empty and the C code would
read out of bounds). -/
def chooseSurfaceFormat (formats : List VkSurfaceFormatKHR) :
    Option VkSurfaceFormatKHR :=
  match formatSearch formats with
  | some f => some f
  | none => formats.head?

/-- The present-mode search loop (main.c lines 689-694): assigns the
present_mode cell on a FIFO match and breaks, but the found_mode flag declared
at line 636 is never written inside the loop.  Returns the present_mode cell
value after the loop together with found_mode. -/
def presentModeSearch : List VkPresentModeKHR → Option VkPresentModeKHR →
    Option VkPresentModeKHR × Bool
  | [], pm => (pm, false)
  | m :: rest, pm =>
    if m = VkPresentModeKHR.fifo then (some m, false)
    else presentModeSearch rest pm

/-- Present-mode negotiation (main.c lines 689-697): the search loop, then
`if (!found_mode) present_mode = present_modes[0];`.  Because found_mode is
still false after the loop, the assignment always runs (none models the
out-of-bounds present_modes[0] read on an empty enumeration). -/
def choosePresentMode (modes : List VkPresentModeKHR)
    (pm : Option VkPresentModeKHR) : Option VkPresentModeKHR :=
  let res := presentModeSearch modes pm
  if res.2 = false then modes.head? else res.1

/-- Image-count computation (main.c lines 706-714): minImageCount + 1 in u32
arithmetic, replaced by maxImageCount when maxImageCount > 0 and
maxImageCount < minImageCount. -/
def swapchainImageCount (caps : VkSurfaceCapabilitiesKHR) : Nat :=
  let count := (caps.minImageCount + 1) % U32_MOD
  if 0 < caps.maxImageCount ∧ caps.maxImageCount < caps.minImageCount then
    caps.maxImageCount
  else count

/-- The image-count rule as the specification words it (spec section 4.2 and
the section 8 scenarios): minImageCount + 1, clamped down to maxImageCount
whenever a nonzero maxImageCount is smaller than that sum.  Written from the
spec, to be compared with swapchainImageCount. -/
def specImageCount (caps : VkSurfaceCapabilitiesKHR) : Nat :=
  let sum := caps.minImageCount + 1
  if 0 < caps.maxImageCount ∧ caps.maxImageCount < sum then
    caps.maxImageCount
  else sum

/-- Models the NH_CLAMP macro of the external nh_base.h dependency (not part
of this repository): clamp a value into [lo, hi]. -/
def NH_CLAMP (x lo hi : Nat) : Nat :=
  if x < lo then lo else if hi < x then hi else x

/-- The (u32) cast applied to the i32 window size components at
main.c lines 724 and 729. -/
def i32ToU32 (x : Int) : Nat := (x % (4294967296 : Int)).toNat

/-- Extent resolution (main.c lines 715-733): if the reported current extent
width is 0xFFFFFFFF the current extent is used as is; otherwise each component
is the window size clamped into [minImageExtent, maxImageExtent]. -/
def resolveExtent (caps : VkSurfaceCapabilitiesKHR) (winW winH : Int) :
    VkExtent2D :=
  if caps.currentExtent.width = U32_MAX then
    caps.currentExtent
  else
    { width := NH_CLAMP (i32ToU32 winW)
        caps.minImageExtent.width caps.maxImageExtent.width,
      height := NH_CLAMP (i32ToU32 winH)
        caps.minImageExtent.height caps.maxImageExtent.height }

/-- The fields of the VkSwapchainCreateInfoKHR request that main.c fills from
computed data (lines 741-767); format and present mode are Option because the
corresponding renderer cells can be unset when the enumerations are empty. -/
structure VkSwapchainCreateInfoKHR where
  minImageCount : Nat
  surfaceFormat : Option VkSurfaceFormatKHR
  imageExtent : VkExtent2D
  imageSharingMode : VkSharingMode
  queueFamilyIndexCount : Nat
  pQueueFamilyIndices : List Nat
  presentMode : Option VkPresentModeKHR
deriving DecidableEq

/-- Opaque VkImage handle, modelled as a token. -/
abbrev VkImage := Nat

/-- A VkImageView created at main.c lines 807-830: one identity view over a
swapchain image. -/
structure VkImageView where
  image : VkImage
deriving DecidableEq

/-- A VkFramebuffer created at main.c lines 1147-1165: one color attachment,
the image view at the same index. -/
structure VkFramebuffer where
  attachment : VkImageView
deriving DecidableEq

/-- The renderer_t fields that the claims are about (main.c lines 58-96). -/
structure RendererState where
  queue_family_indices : QueueFamilyIndices
  surface_format : Option VkSurfaceFormatKHR
  present_mode : Option VkPresentModeKHR
  surface_caps : VkSurfaceCapabilitiesKHR
  swapchain_extent : VkExtent2D
  swapchain : Nat
  swapchain_image_count : Nat
  swapchain_images : List VkImage
  swapchain_image_views : List VkImageView
  swapchain_framebuffers : List VkFramebuffer
deriving DecidableEq

/-- The surface data the driver reports when renderer_create_swapchain
(re)queries it: formats, present modes and the capability snapshot. -/
structure SurfaceQuery where
  formats : List VkSurfaceFormatKHR
  modes : List VkPresentModeKHR
  caps : VkSurfaceCapabilitiesKHR
deriving DecidableEq

/-- renderer_create_swapchain (main.c lines 630-776): negotiates format and
present mode, snapshots the capabilities, computes the resolved image count
and extent into the renderer state, bumps the swapchain handle, and returns
the new state together with the VkSwapchainCreateInfoKHR actually passed to
vkCreateSwapchainKHR - whose minImageCount is the capability minImageCount
(line 745) and whose imageExtent is the capability currentExtent (line 748),
and whose sharing fields follow the family comparison at lines 751-762. -/
def renderer_create_swapchain (r : RendererState) (q : SurfaceQuery)
    (winW winH : Int) : RendererState × VkSwapchainCreateInfoKHR :=
  let fmt := chooseSurfaceFormat q.formats
  let pm := choosePresentMode q.modes r.present_mode
  let count := swapchainImageCount q.caps
  let ext := resolveExtent q.caps winW winH
  let cinfo : VkSwapchainCreateInfoKHR :=
    { minImageCount := q.caps.minImageCount
      surfaceFormat := fmt
      imageExtent := q.caps.currentExtent
      imageSharingMode :=
        if r.queue_family_indices.present_family
            = r.queue_family_indices.graphics_family then
          VkSharingMode.exclusive
        else VkSharingMode.concurrent
      queueFamilyIndexCount :=
        if r.queue_family_indices.present_family
            = r.queue_family_indices.graphics_family then 0 else 2
      pQueueFamilyIndices :=
        if r.queue_family_indices.present_family
            = r.queue_family_indices.graphics_family then []
        else r.queue_family_indices.indices
      presentMode := pm }
  ({ r with
      surface_format := fmt
      present_mode := pm
      surface_caps := q.caps
      swapchain_image_count := count
      swapchain_extent := ext
      swapchain := r.swapchain + 1 },
   cinfo)

/-- renderer_get_swapchain_images (main.c lines 778-831): queries the image
list (vkGetSwapchainImagesKHR overwrites the count cell with the queried
count) and creates one identity image view per image, in order. -/
def renderer_get_swapchain_images (r : RendererState)
    (images : List VkImage) : RendererState :=
  { r with
    swapchain_image_count := images.length
    swapchain_images := images
    swapchain_image_views := images.map (fun im => { image := im }) }

/-- renderer_create_framebuffers (main.c lines 1134-1166): for each index
below the image count, one framebuffer whose single attachment is the image
view at that index. -/
def renderer_create_framebuffers (r : RendererState) : RendererState :=
  { r with
    swapchain_framebuffers :=
      (r.swapchain_image_views.take r.swapchain_image_count).map
        (fun v => { attachment := v }) }

/-- The swapchain portion of create_renderer (main.c lines 1339, 1340, 1343):
create_swapchain, get_swapchain_images, create_framebuffers.  The steps in
between (render pass, pipeline) do not touch the image sequences. -/
def renderer_init_swapchain (r : RendererState) (q : SurfaceQuery)
    (winW winH : Int) (images : List VkImage) : RendererState :=
  renderer_create_framebuffers
    (renderer_get_swapchain_images
      ((renderer_create_swapchain r q winW winH).1) images)

/-- The observable operations of one renderer_draw call. -/
inductive DrawAction where
  | waitForFences
  | acquireNextImage
  | deviceWaitIdle
  | destroyFramebuffer (i : Nat)
  | destroyImageView (i : Nat)
  | destroySwapchain
  | createSwapchain
  | getSwapchainImages
  | createFramebuffers
  | resetFences
  | resetCommandBuffer
  | recordCommandBuffer (imageIndex : Nat)
  | queueSubmit
  | queuePresent
deriving DecidableEq

/-- The environment of one renderer_draw call: the result codes the driver
returns, the image index acquired, and the surface data and image list a
rebuild would requery. -/
structure DrawEnv where
  acquireResult : Int
  acquireIndex : Nat
  submitResult : Int
  presentResult : Int
  query : SurfaceQuery
  newImages : List VkImage
  winW : Int
  winH : Int
deriving DecidableEq

/-- The outcome of one renderer_draw call: the renderer state after the call,
the operations performed in order, the messages printed, and the exit status
when the call terminates the process. -/
structure DrawResult where
  state : RendererState
  trace : List DrawAction
  logs : List LogMsg
  exitCode : Option Nat
deriving DecidableEq

/-- The swapchain recreation block duplicated at main.c lines 1463-1482 and
1530-1549: device wait idle, destroy every framebuffer, destroy every image
view, destroy the swapchain, then create_swapchain, get_swapchain_images,
create_framebuffers. -/
def rebuildSwapchain (r : RendererState) (env : DrawEnv) :
    RendererState × List DrawAction :=
  let n := r.swapchain_image_count
  let r1 := (renderer_create_swapchain r env.query env.winW env.winH).1
  let r2 := renderer_get_swapchain_images r1 env.newImages
  let r3 := renderer_create_framebuffers r2
  (r3,
   DrawAction.deviceWaitIdle ::
     ((List.range n).map DrawAction.destroyFramebuffer ++
      (List.range n).map DrawAction.destroyImageView ++
      [DrawAction.destroySwapchain, DrawAction.createSwapchain,
       DrawAction.getSwapchainImages, DrawAction.createFramebuffers]))

/-- renderer_draw (main.c lines 1433-1556): wait on the in-flight fence,
acquire (three-way switch at 1451-1488), and on success reset the fence and
command buffer, record, submit (through VK_CHECK at 1510), and present
(three-way switch at 1525-1555).  Out-of-date or suboptimal on acquire or
present runs the rebuild block and returns; any other non-success code there
prints the fixed message and exits with status 1. -/
def renderer_draw (r : RendererState) (env : DrawEnv) : DrawResult :=
  let pre := [DrawAction.waitForFences, DrawAction.acquireNextImage]
  if env.acquireResult = VK_SUCCESS then
    let subLogs :=
      (VK_CHECK env.submitResult VkCall.vkQueueSubmit).logged.map
        (fun p => LogMsg.checkError p.1 p.2)
    let mid := pre ++
      [DrawAction.resetFences, DrawAction.resetCommandBuffer,
       DrawAction.recordCommandBuffer env.acquireIndex,
       DrawAction.queueSubmit, DrawAction.queuePresent]
    if env.presentResult = VK_SUCCESS then
      { state := r, trace := mid, logs := subLogs, exitCode := none }
    else if env.presentResult = VK_ERROR_OUT_OF_DATE_KHR
        ∨ env.presentResult = VK_SUBOPTIMAL_KHR then
      { state := (rebuildSwapchain r env).1,
        trace := mid ++ (rebuildSwapchain r env).2,
        logs := subLogs ++ [LogMsg.infoSwapchainOutOfDate],
        exitCode := none }
    else
      { state := r, trace := mid,
        logs := subLogs ++ [LogMsg.errorFailedPresent],
        exitCode := some 1 }
  else if env.acquireResult = VK_ERROR_OUT_OF_DATE_KHR
      ∨ env.acquireResult = VK_SUBOPTIMAL_KHR then
    { state := (rebuildSwapchain r env).1,
      trace := pre ++ (rebuildSwapchain r env).2,
      logs := [LogMsg.infoSwapchainOutOfDate],
      exitCode := none }
  else
    { state := r, trace := pre,
      logs := [LogMsg.errorFailedAcquire],
      exitCode := some 1 }

/-- The steps of create_renderer around queue-family resolution
(main.c lines 1336-1337). -/
inductive InitStep where
  | findQueueFamilies
  | createLogicalDevice
  | fatalExit (code : Nat)
deriving DecidableEq

/-- The create_renderer call order around queue-family resolution
(main.c lines 1336-1337): renderer_find_queue_families runs first and exits
the process with status 1 when a role is missing; only when both roles are
resolved is renderer_create_logical_device reached. -/
def deviceInitFlow (fams : List QueueFamilyInput) :
    List InitStep × Option QueueFamilyIndices :=
  match renderer_find_queue_families fams with
  | some qfi =>
    ([InitStep.findQueueFamilies, InitStep.createLogicalDevice], some qfi)
  | none => ([InitStep.findQueueFamilies, InitStep.fatalExit 1], none)

/-- The index-alignment invariant of the swapchain sequences (claim C8): the
count cell and the view and framebuffer sequences agree with the image
sequence in length, view i is the view of image i, and framebuffer i is the
framebuffer over view i. -/
def indexAligned (r : RendererState) : Prop :=
  r.swapchain_image_count = r.swapchain_images.length ∧
  r.swapchain_image_views.length = r.swapchain_images.length ∧
  r.swapchain_framebuffers.length = r.swapchain_images.length ∧
  ∀ i, i < r.swapchain_images.length →
    (r.swapchain_image_views[i]?.map VkImageView.image
        = r.swapchain_images[i]? ∧
     r.swapchain_framebuffers[i]?.map VkFramebuffer.attachment
        = r.swapchain_image_views[i]?)

/-- The index of the last list element satisfying a predicate (used to state
what the overwriting scan of renderer_find_queue_families records). -/
def lastIdx {α : Type} (p : α → Bool) : List α → Option Nat
  | [] => none
  | a :: rest =>
    match lastIdx p rest with
    | some j => some (j + 1)
    | none => if p a then some 0 else none

/-- Rebase an optional index by an offset, keeping a fallback for none
(used to relate the scan loop to lastIdx). -/
def shiftIdx (base : Nat) (fallback : Option Nat) : Option Nat → Option Nat
  | some j => some (base + j)
  | none => fallback

/-- A sample extent for concrete instantiations. -/
def sampleExtent : VkExtent2D := { width := 800, height := 600 }

/-- A sample capability snapshot for concrete instantiations. -/
def sampleCaps : VkSurfaceCapabilitiesKHR :=
  { minImageCount := 2
    maxImageCount := 0
    currentExtent := sampleExtent
    minImageExtent := { width := 1, height := 1 }
    maxImageExtent := { width := 4096, height := 4096 } }

/-- A sample surface query for concrete instantiations. -/
def sampleQuery : SurfaceQuery :=
  { formats := [{ format := 50, colorSpace := 0 }]
    modes := [VkPresentModeKHR.fifo]
    caps := sampleCaps }

/-- A sample renderer state for concrete instantiations. -/
def sampleState : RendererState :=
  { queue_family_indices :=
      { graphics_family := 0, present_family := 0, indices := [0, 0] }
    surface_format := none
    present_mode := none
    surface_caps := sampleCaps
    swapchain_extent := sampleExtent
    swapchain := 0
    swapchain_image_count := 0
    swapchain_images := []
    swapchain_image_views := []
    swapchain_framebuffers := [] }

/-- A draw environment whose acquire reports VK_SUBOPTIMAL_KHR. -/
def sampleEnvStale : DrawEnv :=
  { acquireResult := VK_SUBOPTIMAL_KHR
    acquireIndex := 0
    submitResult := 0
    presentResult := 0
    query := sampleQuery
    newImages := [7, 8, 9]
    winW := 800
    winH := 600 }

/-- A draw environment whose submit fails with a code outside the tolerated
set while acquire and present succeed. -/
def sampleEnvSubmitFail : DrawEnv :=
  { acquireResult := 0
    acquireIndex := 0
    submitResult := -4
    presentResult := 0
    query := sampleQuery
    newImages := []
    winW := 800
    winH := 600 }

/-- A draw environment whose acquire fails with a code outside the tolerated
set. -/
def sampleEnvAcquireFail : DrawEnv :=
  { acquireResult := -4
    acquireIndex := 0
    submitResult := 0
    presentResult := 0
    query := sampleQuery
    newImages := []
    winW := 800
    winH := 600 }

/-- Two queue families, both supporting graphics and presentation. -/
def famsBoth : List QueueFamilyInput :=
  [{ graphicsBit := true, presentSupport := true },
   { graphicsBit := true, presentSupport := true }]

/-- The capability snapshot of the spec scenario minImageCount=3,
maxImageCount=3. -/
def capsMin3Max3 : VkSurfaceCapabilitiesKHR :=
  { minImageCount := 3
    maxImageCount := 3
    currentExtent := sampleExtent
    minImageExtent := { width := 1, height := 1 }
    maxImageExtent := { width := 4096, height := 4096 } }

/-- The capability snapshot of the sentinel-extent scenario. -/
def capsSentinel : VkSurfaceCapabilitiesKHR :=
  { minImageCount := 2
    maxImageCount := 0
    currentExtent := undefinedExtent
    minImageExtent := { width := 1, height := 1 }
    maxImageExtent := { width := 4096, height := 4096 } }

/-- A first-match scan starting at index i that returns some j found the match
at offset j - i, and no earlier element matches. -/
theorem firstIdxFrom_some {α : Type} (p : α → Bool) :
    ∀ (l : List α) (i j : Nat), firstIdxFrom p i l = some j →
      ∃ k, j = i + k ∧ (∃ a, l[k]? = some a ∧ p a = true) ∧
        ∀ m a, l[m]? = some a → p a = true → k ≤ m
  | [], i, j, h => by simp [firstIdxFrom] at h
  | a :: rest, i, j, h => by
    by_cases hp : p a = true
    · simp [firstIdxFrom, hp] at h
      exact ⟨0, by omega, ⟨a, by simp, hp⟩, fun m b _ _ => Nat.zero_le m⟩
    · simp [firstIdxFrom, hp] at h
      obtain ⟨k, hk, ⟨b, hb, hpb⟩, hmin⟩ := firstIdxFrom_some p rest (i + 1) j h
      refine ⟨k + 1, by omega, ⟨b, by simpa using hb, hpb⟩, ?_⟩
      intro m c hm hpc
      cases m with
      | zero =>
        simp at hm
        subst hm
        exact absurd hpc hp
      | succ m =>
        have := hmin m c (by simpa using hm) hpc
        omega

/-- A first-match scan returns none exactly when no element matches. -/
theorem firstIdxFrom_none {α : Type} (p : α → Bool) :
    ∀ (l : List α) (i : Nat), firstIdxFrom p i l = none ↔ ∀ a ∈ l, p a = false
  | [], i => by simp [firstIdxFrom]
  | a :: rest, i => by
    by_cases hp : p a = true
    · simp [firstIdxFrom, hp]
    · rw [show firstIdxFrom p i (a :: rest) = firstIdxFrom p (i + 1) rest from by
        simp [firstIdxFrom, hp]]
      rw [firstIdxFrom_none p rest (i + 1)]
      constructor
      · intro h b hb
        rcases List.mem_cons.mp hb with hb | hb
        · subst hb
          exact Bool.eq_false_iff.mpr hp
        · exact h b hb
      · intro h b hb
        exact h b (List.mem_cons_of_mem a hb)

/-- lastIdx returns none exactly when no element matches. -/
theorem lastIdx_none {α : Type} (p : α → Bool) :
    ∀ (l : List α), lastIdx p l = none ↔ ∀ a ∈ l, p a = false
  | [] => by simp [lastIdx]
  | a :: rest => by
    cases hr : lastIdx p rest with
    | some k =>
      simp only [lastIdx, hr]
      constructor
      · intro h
        exact absurd h (by simp)
      · intro h
        exfalso
        have hnone : lastIdx p rest = none :=
          (lastIdx_none p rest).2 (fun b hb => h b (List.mem_cons_of_mem a hb))
        rw [hr] at hnone
        exact absurd hnone (by simp)
    | none =>
      simp only [lastIdx, hr]
      have hrest := (lastIdx_none p rest).1 hr
      by_cases hp : p a = true
      · rw [if_pos hp]
        constructor
        · intro h
          exact absurd h (by simp)
        · intro h
          exfalso
          have := h a (List.mem_cons_self a rest)
          rw [this] at hp
          exact Bool.false_ne_true hp
      · rw [if_neg hp]
        constructor
        · intro _ b hb
          rcases List.mem_cons.mp hb with hb | hb
          · subst hb
            exact Bool.eq_false_iff.mpr hp
          · exact hrest b hb
        · intro _
          rfl

/-- lastIdx returning some j means element j matches and no later one does. -/
theorem lastIdx_some {α : Type} (p : α → Bool) :
    ∀ (l : List α) (j : Nat), lastIdx p l = some j →
      (∃ a, l[j]? = some a ∧ p a = true) ∧
        ∀ m a, l[m]? = some a → p a = true → m ≤ j
  | [], j, h => by simp [lastIdx] at h
  | a :: rest, j, h => by
    cases hr : lastIdx p rest with
    | some k =>
      simp only [lastIdx, hr, Option.some.injEq] at h
      obtain ⟨⟨b, hb, hpb⟩, hmax⟩ := lastIdx_some p rest k hr
      have hj : j = k + 1 := by omega
      subst hj
      refine ⟨⟨b, by simpa using hb, hpb⟩, ?_⟩
      intro m c hm hpc
      cases m with
      | zero => omega
      | succ m =>
        have := hmax m c (by simpa using hm) hpc
        omega
    | none =>
      simp only [lastIdx, hr] at h
      by_cases hp : p a = true
      · rw [if_pos hp] at h
        simp only [Option.some.injEq] at h
        have hj : j = 0 := by omega
        subst hj
        refine ⟨⟨a, by simp, hp⟩, ?_⟩
        intro m c hm hpc
        cases m with
        | zero => omega
        | succ m =>
          exfalso
          have hmem : c ∈ rest := List.getElem?_mem (by simpa using hm)
          have := (lastIdx_none p rest).1 hr c hmem
          rw [this] at hpc
          exact Bool.false_ne_true hpc
      · rw [if_neg hp] at h
        exact absurd h (by simp)

/-- The overwriting scan loop computes, for each role, the last matching index
(offset by the starting index), falling back to the incoming accumulator. -/
theorem findLoop_eq :
    ∀ (fams : List QueueFamilyInput) (i : Nat) (g p : Option Nat),
      findQueueFamiliesLoop i fams (g, p) =
        (shiftIdx i g (lastIdx (fun f => f.graphicsBit) fams),
         shiftIdx i p (lastIdx (fun f => f.presentSupport) fams))
  | [], i, g, p => by simp [findQueueFamiliesLoop, lastIdx, shiftIdx]
  | f :: rest, i, g, p => by
    have hstep : findQueueFamiliesLoop i (f :: rest) (g, p) =
        findQueueFamiliesLoop (i + 1) rest
          ((if f.graphicsBit = true then some i else g),
           (if f.presentSupport = true then some i else p)) := by
      simp only [findQueueFamiliesLoop]
      by_cases hps : f.presentSupport = true <;>
        by_cases hgb : f.graphicsBit = true <;> simp [hps, hgb]
    rw [hstep, findLoop_eq rest (i + 1)]
    cases hr1 : lastIdx (fun f => f.graphicsBit) rest <;>
      cases hr2 : lastIdx (fun f => f.presentSupport) rest <;>
        cases hgb : f.graphicsBit <;> cases hps : f.presentSupport <;>
          simp [lastIdx, shiftIdx, hr1, hr2, hgb, hps] <;> omega

/-- shiftIdx from base 0 with fallback none is the identity. -/
theorem shiftIdx_zero_none (o : Option Nat) : shiftIdx 0 none o = o := by
  cases o <;> simp [shiftIdx]

/-- renderer_find_queue_families in terms of the last matching indices. -/
theorem renderer_find_eq (fams : List QueueFamilyInput) :
    renderer_find_queue_families fams =
      match lastIdx (fun f => f.graphicsBit) fams,
          lastIdx (fun f => f.presentSupport) fams with
      | some g, some p =>
        some { graphics_family := g, present_family := p, indices := [g, p] }
      | _, _ => none := by
  unfold renderer_find_queue_families
  rw [findLoop_eq fams 0 none none, shiftIdx_zero_none, shiftIdx_zero_none]
  cases lastIdx (fun f => f.graphicsBit) fams <;>
    cases lastIdx (fun f => f.presentSupport) fams <;> rfl

/-- On success, the indices array holds exactly the two recorded families, in
the order [graphics, present]. -/
theorem renderer_find_indices (fams : List QueueFamilyInput)
    (qfi : QueueFamilyIndices)
    (h : renderer_find_queue_families fams = some qfi) :
    qfi.indices = [qfi.graphics_family, qfi.present_family] := by
  rw [renderer_find_eq] at h
  cases h1 : lastIdx (fun f => f.graphicsBit) fams <;>
    cases h2 : lastIdx (fun f => f.presentSupport) fams <;>
      rw [h1, h2] at h <;> simp at h
  rw [← h]

/-- NH_CLAMP stays inside [lo, hi] whenever lo ≤ hi. -/
theorem NH_CLAMP_bounds (x lo hi : Nat) (h : lo ≤ hi) :
    lo ≤ NH_CLAMP x lo hi ∧ NH_CLAMP x lo hi ≤ hi := by
  unfold NH_CLAMP
  split_ifs <;> omega

/-- The computed image count never equals the capability minImageCount: it is
minImageCount + 1 (mod 2^32), or maxImageCount which the guard forces strictly
below minImageCount. -/
theorem swapchainImageCount_ne (caps : VkSurfaceCapabilitiesKHR) :
    swapchainImageCount caps ≠ caps.minImageCount := by
  simp only [swapchainImageCount, U32_MOD]
  split <;> omega

/-- The present-mode search loop never sets the found flag: it is declared
false at main.c line 636 and no statement in the loop body writes it. -/
theorem presentModeSearch_found_false :
    ∀ (modes : List VkPresentModeKHR) (pm : Option VkPresentModeKHR),
      (presentModeSearch modes pm).2 = false
  | [], _ => rfl
  | m :: rest, pm => by
    by_cases h : m = VkPresentModeKHR.fifo
    · simp [presentModeSearch, h]
    · simp [presentModeSearch, h, presentModeSearch_found_false rest pm]

/-- C1: the spec says the resolved swapchain image count is minImageCount + 1
clamped down to a nonzero maxImageCount smaller than that sum, so that
(min=3, max=3) resolves to 3 and (min=2, max=0) resolves to 3.  The code
(main.c lines 709-711) compares maxImageCount against minImageCount instead of
against minImageCount + 1, so for (min=3, max=3) it produces 4 where the spec
scenario demands 3; the (min=2, max=0) scenario does hold.  This theorem
evaluates the code and the spec rule at the failing input. -/
theorem C1_image_count_code_eval :
    swapchainImageCount capsMin3Max3 = 4 ∧
    specImageCount capsMin3Max3 = 3 ∧
    swapchainImageCount sampleCaps = 3 ∧
    specImageCount sampleCaps = 3 := by decide

/-- C4: the spec says FIFO is selected whenever enumerated, with the first
enumerated mode used only when FIFO is absent.  In the code the fallback
`if (!found_mode)` at main.c line 696 always fires because found_mode is never
set in the search loop, so the negotiated mode is always the first enumerated
mode, overwriting the FIFO the loop had just assigned: with the enumeration
[MAILBOX, FIFO] the code negotiates MAILBOX although FIFO is present. -/
theorem C4_present_mode_code_eval :
    (∀ (modes : List VkPresentModeKHR) (pm : Option VkPresentModeKHR),
        choosePresentMode modes pm = modes.head?) ∧
    choosePresentMode [VkPresentModeKHR.mailbox, VkPresentModeKHR.fifo] none
        = some VkPresentModeKHR.mailbox ∧
    VkPresentModeKHR.fifo ∈ [VkPresentModeKHR.mailbox, VkPresentModeKHR.fifo] ∧
    VkPresentModeKHR.mailbox ≠ VkPresentModeKHR.fifo := by
  refine ⟨fun modes pm => ?_, by decide, by decide, by decide⟩
  simp [choosePresentMode, presentModeSearch_found_false]

/-- C5: on every swapchain (re)build the create request passes the capability
snapshot's minImageCount as the requested image count (main.c line 745) and
the capability snapshot's currentExtent as the image extent (line 748); the
resolved image count stored in the state never equals the count handed over,
and the resolved extent is a different quantity from the handed extent
(they differ e.g. whenever the clamped window size differs from the reported
current extent). -/
theorem C5_create_request (r : RendererState) (q : SurfaceQuery)
    (winW winH : Int) :
    (renderer_create_swapchain r q winW winH).2.minImageCount
        = q.caps.minImageCount ∧
    (renderer_create_swapchain r q winW winH).2.imageExtent
        = q.caps.currentExtent ∧
    (renderer_create_swapchain r q winW winH).1.swapchain_image_count
        = swapchainImageCount q.caps ∧
    (renderer_create_swapchain r q winW winH).1.swapchain_extent
        = resolveExtent q.caps winW winH ∧
    (renderer_create_swapchain r q winW winH).1.swapchain_image_count
        ≠ (renderer_create_swapchain r q winW winH).2.minImageCount ∧
    (∃ (caps2 : VkSurfaceCapabilitiesKHR) (w h : Int),
        resolveExtent caps2 w h ≠ caps2.currentExtent) := by
  refine ⟨rfl, rfl, rfl, rfl, swapchainImageCount_ne q.caps, ?_⟩
  exact ⟨{ minImageCount := 1
           maxImageCount := 0
           currentExtent := { width := 100, height := 100 }
           minImageExtent := { width := 1, height := 1 }
           maxImageExtent := { width := 50, height := 50 } },
         200, 200, by decide⟩

/-- C7: if the capability current extent is the undefined sentinel, the
resolved extent is that sentinel verbatim; otherwise each component is the
window size clamped into [minImageExtent, maxImageExtent]; hence the resolved
extent is the sentinel or lies within the bounds.  The hypotheses state the
Vulkan guarantees about a capability snapshot: the sentinel is reported in
both components or neither, and the extent bounds are ordered. -/
theorem C7_extent_resolution (caps : VkSurfaceCapabilitiesKHR)
    (winW winH : Int)
    (hwf : caps.currentExtent.width = U32_MAX →
      caps.currentExtent = undefinedExtent)
    (hbw : caps.minImageExtent.width ≤ caps.maxImageExtent.width)
    (hbh : caps.minImageExtent.height ≤ caps.maxImageExtent.height) :
    (caps.currentExtent = undefinedExtent →
        resolveExtent caps winW winH = caps.currentExtent) ∧
    (caps.currentExtent ≠ undefinedExtent →
        resolveExtent caps winW winH =
          { width := NH_CLAMP (i32ToU32 winW)
              caps.minImageExtent.width caps.maxImageExtent.width,
            height := NH_CLAMP (i32ToU32 winH)
              caps.minImageExtent.height caps.maxImageExtent.height }) ∧
    (resolveExtent caps winW winH = undefinedExtent ∨
        (caps.minImageExtent.width ≤ (resolveExtent caps winW winH).width ∧
         (resolveExtent caps winW winH).width ≤ caps.maxImageExtent.width ∧
         caps.minImageExtent.height ≤ (resolveExtent caps winW winH).height ∧
         (resolveExtent caps winW winH).height ≤ caps.maxImageExtent.height)) := by
  by_cases hw : caps.currentExtent.width = U32_MAX
  · have hce := hwf hw
    refine ⟨fun _ => ?_, fun hne => absurd hce hne, Or.inl ?_⟩
    · simp [resolveExtent, hw]
    · rw [show resolveExtent caps winW winH = caps.currentExtent from by
        simp [resolveExtent, hw]]
      exact hce
  · have hne : caps.currentExtent ≠ undefinedExtent := by
      intro hc
      exact hw (by rw [hc]; rfl)
    have h1 := NH_CLAMP_bounds (i32ToU32 winW)
      caps.minImageExtent.width caps.maxImageExtent.width hbw
    have h2 := NH_CLAMP_bounds (i32ToU32 winH)
      caps.minImageExtent.height caps.maxImageExtent.height hbh
    refine ⟨fun hc => absurd hc hne, fun _ => ?_, Or.inr ?_⟩
    · simp [resolveExtent, hw]
    · simp only [resolveExtent, hw, if_false]
      exact ⟨h1.1, h1.2, h2.1, h2.2⟩

/-- C7 witness: the sentinel scenario of spec section 8 (window 800x600,
bounds [1,4096]) resolves to the sentinel verbatim, and a non-sentinel
snapshot resolves to the clamped window size. -/
theorem C7_extent_resolution_witness :
    resolveExtent capsSentinel 800 600 = capsSentinel.currentExtent ∧
    resolveExtent sampleCaps 5000 600 =
      { width := NH_CLAMP (i32ToU32 5000) 1 4096,
        height := NH_CLAMP (i32ToU32 600) 1 4096 } := by
  constructor
  · exact (C7_extent_resolution capsSentinel 800 600 (by decide) (by decide)
      (by decide)).1 (by decide)
  · exact (C7_extent_resolution sampleCaps 5000 600 (by decide) (by decide)
      (by decide)).2.1 (by decide)

/-- C9: physical-device selection returns the first enumerated discrete GPU,
else the first enumerated integrated GPU, else the first enumerated device,
each tier a single first-match linear scan. -/
theorem C9_pick_physical_device (devs : List VkPhysicalDeviceType)
    (hne : devs ≠ []) :
    renderer_pick_physical_device devs ≠ none ∧
    ∀ i, renderer_pick_physical_device devs = some i →
      ((∃ d ∈ devs, d = VkPhysicalDeviceType.discreteGpu) →
          devs[i]? = some VkPhysicalDeviceType.discreteGpu ∧
          ∀ j, devs[j]? = some VkPhysicalDeviceType.discreteGpu → i ≤ j) ∧
      ((∀ d ∈ devs, d ≠ VkPhysicalDeviceType.discreteGpu) →
          (∃ d ∈ devs, d = VkPhysicalDeviceType.integratedGpu) →
          devs[i]? = some VkPhysicalDeviceType.integratedGpu ∧
          ∀ j, devs[j]? = some VkPhysicalDeviceType.integratedGpu → i ≤ j) ∧
      ((∀ d ∈ devs, d ≠ VkPhysicalDeviceType.discreteGpu) →
          (∀ d ∈ devs, d ≠ VkPhysicalDeviceType.integratedGpu) →
          i = 0) := by
  unfold renderer_pick_physical_device
  cases hd : firstIdxFrom (fun d => d == VkPhysicalDeviceType.discreteGpu) 0 devs with
  | some k =>
    obtain ⟨k2, hk2, ⟨a, ha, hpa⟩, hmin⟩ := firstIdxFrom_some _ devs 0 k hd
    have hk2e : k = k2 := by omega
    subst hk2e
    have ha2 : a = VkPhysicalDeviceType.discreteGpu := by simpa using hpa
    subst ha2
    refine ⟨by simp, ?_⟩
    intro i hi
    simp only [Option.some.injEq] at hi
    subst hi
    refine ⟨fun _ => ⟨ha, ?_⟩, fun hno _ => ?_, fun hno _ => ?_⟩
    · intro j hj
      exact hmin j _ hj (by simp)
    · exact absurd rfl (hno _ (List.getElem?_mem ha))
    · exact absurd rfl (hno _ (List.getElem?_mem ha))
  | none =>
    have hnod : ∀ d ∈ devs, d ≠ VkPhysicalDeviceType.discreteGpu := by
      intro d hdm
      have := (firstIdxFrom_none _ devs 0).1 hd d hdm
      simpa using this
    cases hi2 : firstIdxFrom (fun d => d == VkPhysicalDeviceType.integratedGpu) 0 devs with
    | some k =>
      obtain ⟨k2, hk2, ⟨a, ha, hpa⟩, hmin⟩ := firstIdxFrom_some _ devs 0 k hi2
      have hk2e : k = k2 := by omega
      subst hk2e
      have ha2 : a = VkPhysicalDeviceType.integratedGpu := by simpa using hpa
      subst ha2
      refine ⟨by simp, ?_⟩
      intro i hi
      simp only [Option.some.injEq] at hi
      subst hi
      refine ⟨fun hex => ?_, fun _ _ => ⟨ha, ?_⟩, fun _ hno => ?_⟩
      · obtain ⟨d, hdm, hde⟩ := hex
        exact absurd hde (hnod d hdm)
      · intro j hj
        exact hmin j _ hj (by simp)
      · exact absurd rfl (hno _ (List.getElem?_mem ha))
    | none =>
      have hnoi : ∀ d ∈ devs, d ≠ VkPhysicalDeviceType.integratedGpu := by
        intro d hdm
        have := (firstIdxFrom_none _ devs 0).1 hi2 d hdm
        simpa using this
      rw [if_neg hne]
      refine ⟨by simp, ?_⟩
      intro i hi
      simp only [Option.some.injEq] at hi
      subst hi
      refine ⟨fun hex => ?_, fun _ hex => ?_, fun _ _ => rfl⟩
      · obtain ⟨d, hdm, hde⟩ := hex
        exact absurd hde (hnod d hdm)
      · obtain ⟨d, hdm, hde⟩ := hex
        exact absurd hde (hnoi d hdm)

/-- C9 witness: for the enumeration [cpu, integratedGpu] the selection exists
and the integrated tier picks index 1. -/
theorem C9_pick_physical_device_witness :
    renderer_pick_physical_device
        [VkPhysicalDeviceType.cpu, VkPhysicalDeviceType.integratedGpu] ≠ none ∧
    [VkPhysicalDeviceType.cpu, VkPhysicalDeviceType.integratedGpu][1]?
        = some VkPhysicalDeviceType.integratedGpu := by
  have h := C9_pick_physical_device
    [VkPhysicalDeviceType.cpu, VkPhysicalDeviceType.integratedGpu] (by decide)
  refine ⟨h.1, ?_⟩
  exact ((h.2 1 (by decide)).2.1 (by decide) (by decide)).1

/-- C10: the swapchain create request uses exclusive sharing with zero queue
family indices exactly when the resolved graphics and present families are
equal, and otherwise concurrent sharing listing exactly the two resolved
families [graphics, present] (main.c lines 751-762, array filled at lines
498 and 505). -/
theorem C10_sharing_mode (fams : List QueueFamilyInput) (r : RendererState)
    (q : SurfaceQuery) (winW winH : Int)
    (hr : renderer_find_queue_families fams = some r.queue_family_indices) :
    (r.queue_family_indices.graphics_family
          = r.queue_family_indices.present_family →
        (renderer_create_swapchain r q winW winH).2.imageSharingMode
            = VkSharingMode.exclusive ∧
        (renderer_create_swapchain r q winW winH).2.queueFamilyIndexCount = 0 ∧
        (renderer_create_swapchain r q winW winH).2.pQueueFamilyIndices = []) ∧
    (r.queue_family_indices.graphics_family
          ≠ r.queue_family_indices.present_family →
        (renderer_create_swapchain r q winW winH).2.imageSharingMode
            = VkSharingMode.concurrent ∧
        (renderer_create_swapchain r q winW winH).2.queueFamilyIndexCount = 2 ∧
        (renderer_create_swapchain r q winW winH).2.pQueueFamilyIndices =
          [r.queue_family_indices.graphics_family,
           r.queue_family_indices.present_family]) := by
  have hind := renderer_find_indices fams r.queue_family_indices hr
  constructor
  · intro h
    refine ⟨?_, ?_, ?_⟩ <;> simp [renderer_create_swapchain, h.symm]
  · intro h
    have hne2 : ¬ r.queue_family_indices.present_family
        = r.queue_family_indices.graphics_family := fun hc => h hc.symm
    refine ⟨?_, ?_, ?_⟩ <;> simp [renderer_create_swapchain, hne2, hind]

/-- C10 witness: with a single queue family supporting both roles, resolution
yields equal families and the request is exclusive with no indices. -/
theorem C10_sharing_mode_witness :
    (renderer_create_swapchain sampleState sampleQuery 800 600).2.imageSharingMode
        = VkSharingMode.exclusive ∧
    (renderer_create_swapchain sampleState sampleQuery 800 600).2.queueFamilyIndexCount
        = 0 ∧
    (renderer_create_swapchain sampleState sampleQuery 800 600).2.pQueueFamilyIndices
        = [] := by
  exact (C10_sharing_mode
    [{ graphicsBit := true, presentSupport := true }]
    sampleState sampleQuery 800 600 (by decide)).1 (by decide)

/-- C3 counterexample: with two queue families that both support graphics and
presentation, the first matching index for each role is 0, yet resolution
records index 1 for both roles - the scan overwrites on every match, so the
claim that the first matching family is recorded is false. -/
theorem C3_counterexample :
    firstIdxFrom (fun f => f.graphicsBit) 0 famsBoth = some 0 ∧
    firstIdxFrom (fun f => f.presentSupport) 0 famsBoth = some 0 ∧
    (renderer_find_queue_families famsBoth).map
        QueueFamilyIndices.graphics_family = some 1 ∧
    (renderer_find_queue_families famsBoth).map
        QueueFamilyIndices.present_family = some 1 := by decide

/-- C3 (amended): queue-family resolution scans all queue families once and,
overwriting on every match, records the LAST family supporting presentation as
the present family and the LAST family supporting graphics as the graphics
family (the scans independent, a family satisfying both sets both fields and
both slots of the indices array); it fails - the process exits fatally with
status 1 before renderer_create_logical_device runs - exactly when either role
has no matching family. -/
theorem C3_last_family (fams : List QueueFamilyInput)
    (qfi : QueueFamilyIndices) :
    (renderer_find_queue_families fams = some qfi →
        qfi.indices = [qfi.graphics_family, qfi.present_family] ∧
        (∃ a, fams[qfi.graphics_family]? = some a ∧ a.graphicsBit = true) ∧
        (∀ m a, fams[m]? = some a → a.graphicsBit = true →
            m ≤ qfi.graphics_family) ∧
        (∃ a, fams[qfi.present_family]? = some a ∧ a.presentSupport = true) ∧
        (∀ m a, fams[m]? = some a → a.presentSupport = true →
            m ≤ qfi.present_family)) ∧
    (renderer_find_queue_families fams = none ↔
        ((∀ a ∈ fams, a.graphicsBit = false) ∨
         (∀ a ∈ fams, a.presentSupport = false))) ∧
    (renderer_find_queue_families fams = none →
        InitStep.createLogicalDevice ∉ (deviceInitFlow fams).1 ∧
        InitStep.fatalExit 1 ∈ (deviceInitFlow fams).1) := by
  refine ⟨?_, ?_, ?_⟩
  · intro h
    rw [renderer_find_eq] at h
    cases h1 : lastIdx (fun f => f.graphicsBit) fams <;>
      cases h2 : lastIdx (fun f => f.presentSupport) fams <;>
        rw [h1, h2] at h <;> simp at h
    subst h
    obtain ⟨hg1, hg2⟩ := lastIdx_some _ fams _ h1
    obtain ⟨hp1, hp2⟩ := lastIdx_some _ fams _ h2
    exact ⟨rfl, hg1, hg2, hp1, hp2⟩
  · rw [renderer_find_eq]
    cases h1 : lastIdx (fun f => f.graphicsBit) fams <;>
      cases h2 : lastIdx (fun f => f.presentSupport) fams
    · simp only []
      constructor
      · intro _
        exact Or.inl ((lastIdx_none _ fams).1 h1)
      · intro _
        trivial
    · simp only []
      constructor
      · intro _
        exact Or.inl ((lastIdx_none _ fams).1 h1)
      · intro _
        trivial
    · simp only []
      constructor
      · intro _
        exact Or.inr ((lastIdx_none _ fams).1 h2)
      · intro _
        trivial
    · simp only []
      constructor
      · intro hfalse
        exact absurd hfalse (by simp)
      · intro hor
        exfalso
        rcases hor with hall | hall
        · rw [(lastIdx_none _ fams).2 hall] at h1
          exact absurd h1 (by simp)
        · rw [(lastIdx_none _ fams).2 hall] at h2
          exact absurd h2 (by simp)
  · intro h
    unfold deviceInitFlow
    rw [h]
    simp

/-- C3 amended witness: on famsBoth both roles resolve (to the last index 1);
on the empty family list resolution fails and the flow exits before device
creation. -/
theorem C3_last_family_witness :
    ({ graphics_family := 1, present_family := 1,
       indices := [1, 1] } : QueueFamilyIndices).indices = [1, 1] ∧
    InitStep.createLogicalDevice ∉ (deviceInitFlow []).1 ∧
    InitStep.fatalExit 1 ∈ (deviceInitFlow []).1 := by
  have h1 := (C3_last_family famsBoth
    { graphics_family := 1, present_family := 1, indices := [1, 1] }).1
      (by decide)
  have h2 := (C3_last_family []
    { graphics_family := 0, present_family := 0, indices := [] }).2.2
      (by decide)
  exact ⟨h1.1, h2.1, h2.2⟩

/-- C6: when image acquisition reports out-of-date or suboptimal,
renderer_draw performs exactly the rebuild protocol - device wait-idle,
destroy all framebuffers, then all image views, then the swapchain handle,
then re-create swapchain, images with views, and framebuffers - and returns
early without exiting, without resetting the in-flight fence, and without
resetting, recording or submitting the command buffer or presenting; the
swapchain handle identity changes. -/
theorem C6_acquire_stale_rebuild (r : RendererState) (env : DrawEnv)
    (h : env.acquireResult = VK_ERROR_OUT_OF_DATE_KHR
        ∨ env.acquireResult = VK_SUBOPTIMAL_KHR) :
    (renderer_draw r env).trace =
      [DrawAction.waitForFences, DrawAction.acquireNextImage,
       DrawAction.deviceWaitIdle] ++
        (List.range r.swapchain_image_count).map DrawAction.destroyFramebuffer ++
        (List.range r.swapchain_image_count).map DrawAction.destroyImageView ++
        [DrawAction.destroySwapchain, DrawAction.createSwapchain,
         DrawAction.getSwapchainImages, DrawAction.createFramebuffers] ∧
    (renderer_draw r env).exitCode = none ∧
    DrawAction.resetFences ∉ (renderer_draw r env).trace ∧
    DrawAction.resetCommandBuffer ∉ (renderer_draw r env).trace ∧
    (∀ i, DrawAction.recordCommandBuffer i ∉ (renderer_draw r env).trace) ∧
    DrawAction.queueSubmit ∉ (renderer_draw r env).trace ∧
    DrawAction.queuePresent ∉ (renderer_draw r env).trace ∧
    (renderer_draw r env).state.swapchain = r.swapchain + 1 := by
  have h0 : ¬ env.acquireResult = VK_SUCCESS := by
    rcases h with h | h <;> rw [h] <;> decide
  refine ⟨?_, ?_, ?_, ?_, ?_, ?_, ?_, ?_⟩ <;>
    simp [renderer_draw, h0, h, rebuildSwapchain, renderer_create_framebuffers,
      renderer_get_swapchain_images, renderer_create_swapchain]

/-- C6 witness: with acquire reporting suboptimal on the sample state, the
call exits with no code, performs no fence reset, no record, no submit and no
present, and the swapchain identity is bumped. -/
theorem C6_acquire_stale_rebuild_witness :
    (renderer_draw sampleState sampleEnvStale).exitCode = none ∧
    DrawAction.resetFences ∉ (renderer_draw sampleState sampleEnvStale).trace ∧
    DrawAction.recordCommandBuffer 0
        ∉ (renderer_draw sampleState sampleEnvStale).trace ∧
    DrawAction.queueSubmit ∉ (renderer_draw sampleState sampleEnvStale).trace ∧
    (renderer_draw sampleState sampleEnvStale).state.swapchain
        = sampleState.swapchain + 1 := by
  have h := C6_acquire_stale_rebuild sampleState sampleEnvStale
    (Or.inr (by decide))
  exact ⟨h.2.1, h.2.2.1, h.2.2.2.2.1 0, h.2.2.2.2.2.1, h.2.2.2.2.2.2.2⟩

/-- After renderer_get_swapchain_images and renderer_create_framebuffers the
three swapchain sequences are rebuilt wholesale from the queried image list
and are index-aligned. -/
theorem indexAligned_rebuilt (r : RendererState) (images : List VkImage) :
    indexAligned (renderer_create_framebuffers
      (renderer_get_swapchain_images r images)) := by
  have htake : (images.map (fun im => ({ image := im } : VkImageView))).take
      images.length = images.map (fun im => ({ image := im } : VkImageView)) :=
    List.take_of_length_le (by simp)
  unfold indexAligned renderer_create_framebuffers renderer_get_swapchain_images
  simp only [htake]
  refine ⟨by simp, by simp, by simp, ?_⟩
  intro i hi
  constructor
  · rw [List.getElem?_map]
    cases images[i]? <;> simp
  · rw [List.getElem?_map]
    cases (images.map (fun im => ({ image := im } : VkImageView)))[i]? <;> simp

/-- One renderer_draw call preserves the index-alignment invariant: the image,
view and framebuffer sequences are either untouched or rebuilt wholesale. -/
theorem indexAligned_draw (r : RendererState) (env : DrawEnv)
    (hr : indexAligned r) : indexAligned (renderer_draw r env).state := by
  unfold renderer_draw
  by_cases h0 : env.acquireResult = VK_SUCCESS
  · by_cases hp : env.presentResult = VK_SUCCESS
    · simpa [h0, hp] using hr
    · by_cases hst : env.presentResult = VK_ERROR_OUT_OF_DATE_KHR
          ∨ env.presentResult = VK_SUBOPTIMAL_KHR
      · simpa [h0, hp, hst, rebuildSwapchain] using
          indexAligned_rebuilt
            ((renderer_create_swapchain r env.query env.winW env.winH).1)
            env.newImages
      · simpa [h0, hp, hst] using hr
  · by_cases hst : env.acquireResult = VK_ERROR_OUT_OF_DATE_KHR
        ∨ env.acquireResult = VK_SUBOPTIMAL_KHR
    · simpa [h0, hst, rebuildSwapchain] using
        indexAligned_rebuilt
          ((renderer_create_swapchain r env.query env.winW env.winH).1)
          env.newImages
    · simpa [h0, hst] using hr

/-- If a renderer_draw call changes the length of the image sequence, its
trace destroyed and re-created the swapchain and the handle identity changed:
no partial mutation can alter the length. -/
theorem draw_length_change (r : RendererState) (env : DrawEnv)
    (hch : (renderer_draw r env).state.swapchain_images.length
        ≠ r.swapchain_images.length) :
    DrawAction.destroySwapchain ∈ (renderer_draw r env).trace ∧
    DrawAction.createSwapchain ∈ (renderer_draw r env).trace ∧
    (renderer_draw r env).state.swapchain = r.swapchain + 1 := by
  unfold renderer_draw at *
  by_cases h0 : env.acquireResult = VK_SUCCESS
  · by_cases hp : env.presentResult = VK_SUCCESS
    · simp [h0, hp] at hch
    · by_cases hst : env.presentResult = VK_ERROR_OUT_OF_DATE_KHR
          ∨ env.presentResult = VK_SUBOPTIMAL_KHR
      · refine ⟨?_, ?_, ?_⟩ <;>
          simp [h0, hp, hst, rebuildSwapchain, renderer_create_framebuffers,
            renderer_get_swapchain_images, renderer_create_swapchain]
      · simp [h0, hp, hst] at hch
  · by_cases hst : env.acquireResult = VK_ERROR_OUT_OF_DATE_KHR
        ∨ env.acquireResult = VK_SUBOPTIMAL_KHR
    · refine ⟨?_, ?_, ?_⟩ <;>
        simp [h0, hst, rebuildSwapchain, renderer_create_framebuffers,
          renderer_get_swapchain_images, renderer_create_swapchain]
    · simp [h0, hst] at hch

/-- C8: the swapchain image, view and framebuffer sequences always have the
same length (equal to the recorded image count), index i in all three refers
to the same physical image (the view at i views image i and the framebuffer
at i attaches view i), the invariant holds after initialization and is
preserved by every frame, and the length changes only through a
destroy-and-rebuild of the swapchain that also changes the handle identity. -/
theorem C8_index_alignment (r : RendererState) (q : SurfaceQuery)
    (winW winH : Int) (images : List VkImage) (env : DrawEnv) :
    indexAligned (renderer_init_swapchain r q winW winH images) ∧
    (indexAligned r → indexAligned (renderer_draw r env).state) ∧
    ((renderer_draw r env).state.swapchain_images.length
        ≠ r.swapchain_images.length →
      DrawAction.destroySwapchain ∈ (renderer_draw r env).trace ∧
      DrawAction.createSwapchain ∈ (renderer_draw r env).trace ∧
      (renderer_draw r env).state.swapchain = r.swapchain + 1) :=
  ⟨indexAligned_rebuilt ((renderer_create_swapchain r q winW winH).1) images,
   fun hr => indexAligned_draw r env hr,
   fun hch => draw_length_change r env hch⟩

/-- C8 witness: the invariant holds for a concrete initialization with three
images and is preserved by a draw whose acquire forces a rebuild. -/
theorem C8_index_alignment_witness :
    indexAligned (renderer_init_swapchain sampleState sampleQuery 800 600
      [1, 2, 3]) ∧
    indexAligned (renderer_draw sampleState sampleEnvStale).state := by
  have h := C8_index_alignment sampleState sampleQuery 800 600 [1, 2, 3]
    sampleEnvStale
  refine ⟨h.1, h.2.1 ⟨rfl, rfl, rfl, ?_⟩⟩
  intro i hi
  simp [sampleState] at hi

/-- C2 counterexample: a result code outside {success, out-of-date,
suboptimal} on a VK_CHECK-guarded call does not terminate the process - the
macro only logs.  Concretely, when the queue submit inside renderer_draw fails
with code -4, the error is logged yet the call continues to the present step
and returns with no exit code, contradicting the claimed immediate fatal
termination for every unexpected API result. -/
theorem C2_counterexample :
    ((-4 : Int) ≠ VK_SUCCESS ∧ (-4 : Int) ≠ VK_ERROR_OUT_OF_DATE_KHR ∧
        (-4 : Int) ≠ VK_SUBOPTIMAL_KHR) ∧
    (VK_CHECK (-4) VkCall.vkQueueSubmit).exits = false ∧
    (renderer_draw sampleState sampleEnvSubmitFail).exitCode = none ∧
    DrawAction.queuePresent
        ∈ (renderer_draw sampleState sampleEnvSubmitFail).trace ∧
    LogMsg.checkError (-4) VkCall.vkQueueSubmit
        ∈ (renderer_draw sampleState sampleEnvSubmitFail).logs := by decide

/-- C2 (amended): a non-success result on a VK_CHECK-guarded call is logged
with its numeric code and the failing call's text, but execution continues -
the macro never terminates the process; only the acquire and present switches
of renderer_draw terminate the process, with exit status 1, on a result code
outside {success, out-of-date, suboptimal}, after printing a fixed message
that names the failed operation but not the numeric code. -/
theorem C2_unexpected_result (res : Int) (call : VkCall) (r : RendererState)
    (env : DrawEnv) (hres : res ≠ VK_SUCCESS) :
    ((VK_CHECK res call).logged = [(res, call)] ∧
        (VK_CHECK res call).exits = false) ∧
    (env.acquireResult ≠ VK_SUCCESS →
        env.acquireResult ≠ VK_ERROR_OUT_OF_DATE_KHR →
        env.acquireResult ≠ VK_SUBOPTIMAL_KHR →
        (renderer_draw r env).exitCode = some 1 ∧
        LogMsg.errorFailedAcquire ∈ (renderer_draw r env).logs) ∧
    (env.acquireResult = VK_SUCCESS →
        env.presentResult ≠ VK_SUCCESS →
        env.presentResult ≠ VK_ERROR_OUT_OF_DATE_KHR →
        env.presentResult ≠ VK_SUBOPTIMAL_KHR →
        (renderer_draw r env).exitCode = some 1 ∧
        LogMsg.errorFailedPresent ∈ (renderer_draw r env).logs) := by
  refine ⟨?_, ?_, ?_⟩
  · simp [VK_CHECK, hres]
  · intro h1 h2 h3
    have hor : ¬(env.acquireResult = VK_ERROR_OUT_OF_DATE_KHR ∨
        env.acquireResult = VK_SUBOPTIMAL_KHR) := by tauto
    constructor <;> simp [renderer_draw, h1, hor]
  · intro h1 h2 h3 h4
    have hor : ¬(env.presentResult = VK_ERROR_OUT_OF_DATE_KHR ∨
        env.presentResult = VK_SUBOPTIMAL_KHR) := by tauto
    constructor <;> simp [renderer_draw, h1, h2, hor]

/-- C2 amended witness: evaluated at result code -4 on a concrete call and on
an environment whose acquire fails with -4. -/
theorem C2_unexpected_result_witness :
    ((VK_CHECK (-4) VkCall.vkCreateInstance).logged
        = [((-4 : Int), VkCall.vkCreateInstance)] ∧
     (VK_CHECK (-4) VkCall.vkCreateInstance).exits = false) ∧
    ((renderer_draw sampleState sampleEnvAcquireFail).exitCode = some 1 ∧
     LogMsg.errorFailedAcquire
        ∈ (renderer_draw sampleState sampleEnvAcquireFail).logs) := by
  have h := C2_unexpected_result (-4) VkCall.vkCreateInstance sampleState
    sampleEnvAcquireFail (by decide)
  exact ⟨h.1, h.2.1 (by decide) (by decide) (by decide)⟩
